import Mathlib

/-!
Verification of the media-pipeline core of the story-to-video tool.

The development shallowly embeds the relevant source functions:
* `src/app/api/generate-video/route.ts` — the provider fallback resolver
  (`POST`, `getModelConfig`, `MODEL_CONFIGS`, `DEFAULT_MODEL`);
* `src/utils/audioExtender.ts` — the duration normalizer
  (`extendAudioToTargetDuration`, `audioBufferToDataUrl`);
* `src/utils/videoComposer.ts` — the segment processor (`processVideo`) and
  concatenation (`composeVideos`);
* `src/utils/videoAudioMerger.ts` — the caption burn-in path (`mergeVideoAudio`);
* the wave schedulers `generateAllImages` / `animateSelected` /
  `generateAllAudio` and the mount-time stale-flag resets of the
  `Storyboard` / `EditView` components, over the `StoryStore` entity model.

Asynchronous I/O (HTTP fetches, ffmpeg execution, Web Audio decoding) is
modelled by explicit oracle parameters; everything else is translated
directly from the TypeScript.
-/

namespace StoryTool

/-- `pre` is a leading segment of the second character list. -/
def leadsWith : List Char → List Char → Bool
  | [], _ => true
  | _ :: _, [] => false
  | a :: as, b :: bs => a == b && leadsWith as bs

/-- `sub` occurs contiguously somewhere in the character list. -/
def occursIn (sub : List Char) : List Char → Bool
  | [] => sub.isEmpty
  | c :: cs => leadsWith sub (c :: cs) || occursIn sub cs

/-- Embedding of JavaScript `String.prototype.includes`: `sub` occurs as a
contiguous substring of `s`. -/
def containsSub (s sub : String) : Bool :=
  occursIn sub.toList s.toList

/-- Embedding of the 404 classification in `generate-video/route.ts`:
`msg.includes('404') || msg.includes('Not Found')` (an absent/empty message
is falsy and classified generic). -/
def is404 (msg : String) : Bool :=
  containsSub msg "404" || containsSub msg "Not Found"

/-- A JSON-ish parameter value used in provider request bodies. -/
inductive JVal : Type
  | num (q : ℚ)
  | str (s : String)
  | bool (b : Bool)
deriving DecidableEq, Repr

/-- One entry of `MODEL_CONFIGS`: which image-parameter field the backend
expects, whether a prompt is required, and its default parameter object. -/
structure BackendConfig where
  input_image : Bool := false
  image : Bool := false
  prompt_required : Bool := false
  params : List (String × JVal) := []
deriving DecidableEq, Repr

/-- `DEFAULT_MODEL` from `generate-video/route.ts`. -/
def DEFAULT_MODEL : String :=
  "stability-ai/stable-video-diffusion:3f0457e4619daac51203dedb472816fd4af51f3149fa7a9e0b5ffcf1b8172438"

/-- `MODEL_CONFIGS` from `generate-video/route.ts`, in source order
(JavaScript object-literal insertion order). -/
def MODEL_CONFIGS : List (String × BackendConfig) :=
  [ ("stability-ai/stable-video-diffusion",
     { input_image := true
       params := [("motion_bucket_id", JVal.num 127),
                  ("cond_aug", JVal.num (Rat.mk' 1 50 (by decide) (Nat.coprime_one_left 50))),
                  ("video_length", JVal.str "25_frames_with_svd_xt"),
                  ("sizing_strategy", JVal.str "maintain_aspect_ratio"),
                  ("frames_per_second", JVal.num 6)] }),
    ("lightricks/ltx-video",
     { image := true, prompt_required := true
       params := [("prompt", JVal.str "Animate this image with smooth, natural camera motion"),
                  ("num_frames", JVal.num 161), ("num_inference_steps", JVal.num 30)] }),
    ("google/veo",
     { image := true, prompt_required := true
       params := [("duration", JVal.num 5), ("aspect_ratio", JVal.str "16:9"),
                  ("prompt", JVal.str "Animate this image with smooth, natural motion")] }),
    ("wan-video/wan",
     { image := true, prompt_required := true
       params := [("duration", JVal.num 5),
                  ("prompt", JVal.str "Animate this image with smooth, natural motion")] }),
    ("minimax/hailuo",
     { image := true, prompt_required := true
       params := [("duration", JVal.num 5),
                  ("prompt", JVal.str "Animate this image with smooth, natural motion")] }),
    ("minimax/video-01",
     { image := true, prompt_required := true
       params := [("duration", JVal.num 5),
                  ("prompt", JVal.str "Animate this image with smooth, natural motion")] }),
    ("bytedance/seedance",
     { image := true, prompt_required := true
       params := [("duration", JVal.num 5),
                  ("prompt", JVal.str "Animate this image with smooth, natural motion, cinematic camera movement")] }),
    ("bytedance/seedance-1-lite",
     { image := true, prompt_required := true
       params := [("duration", JVal.num 5),
                  ("prompt", JVal.str "Animate this image with smooth, natural motion, cinematic camera movement")] }),
    ("kwaivgi/kling",
     { image := true, prompt_required := true
       params := [("duration", JVal.num 5),
                  ("prompt", JVal.str "Animate this image with smooth, natural motion")] }),
    ("luma/ray",
     { image := true, prompt_required := true
       params := [("extend", JVal.bool false), ("duration", JVal.num 5),
                  ("prompt", JVal.str "Animate this image with smooth, natural motion")] }),
    ("luma/modify-video",
     { image := true, prompt_required := true
       params := [("duration", JVal.num 5),
                  ("prompt", JVal.str "Animate this image with smooth, natural motion")] }),
    ("fofr/tooncrafter",
     { image := true
       params := [("duration", JVal.num 5)] }),
    ("open-mmlab/pia",
     { image := true, prompt_required := true
       params := [("duration", JVal.num 5),
                  ("prompt", JVal.str "Animate this image with smooth, natural motion")] }) ]

/-- The fall-through configuration `getModelConfig` returns for unknown
backend identifiers (superset template: both image fields). -/
def unknownModelConfig : BackendConfig :=
  { input_image := true, image := true, prompt_required := true
    params := [("duration", JVal.num 5),
               ("prompt", JVal.str "Animate this image with smooth, natural motion"),
               ("motion_bucket_id", JVal.num 127), ("frames_per_second", JVal.num 6)] }

/-- `getModelConfig` from `generate-video/route.ts`: first entry whose key is
a substring of `modelId` (`modelId.includes(key)`), else the superset default. -/
def getModelConfig (modelId : String) : BackendConfig :=
  match MODEL_CONFIGS.find? (fun kv => containsSub modelId kv.1) with
  | some kv => kv.2
  | none => unknownModelConfig

/-- The request body built by `POST`: spread of `config.params`, then the
image URL under `input_image` and/or `image` as the config demands. -/
def buildInput (config : BackendConfig) (imageUrl : String) : List (String × JVal) :=
  config.params
    ++ (if config.input_image then [("input_image", JVal.str imageUrl)] else [])
    ++ (if config.image then [("image", JVal.str imageUrl)] else [])

/-- One call to `replicate.run`: which model was invoked with which input. -/
structure Attempt where
  model : String
  input : List (String × JVal)
deriving DecidableEq, Repr

/-- The JSON response of the route: success payload or `{error, status}`. -/
inductive Response : Type
  | success (videoUrl modelUsed : String) (warning : Option String)
  | err (message : String) (status : Nat)
deriving DecidableEq, Repr

/-- The provider collaborator: `replicate.run(modelId, {input})`, returning
an output URL or throwing an error whose message is classified by `is404`. -/
def Provider : Type := String → List (String × JVal) → Except String String

/-- The asset-expired error message returned by the route. -/
def expiredErrorMsg : String :=
  "Image URL has expired. Please go back to Storyboard and regenerate the image (click 🔄 Regenerate), then try again."

/-- The outermost catch of `POST`: re-checks the 404 classification, then
returns `error.message || 'Failed to generate video'` with status 500. -/
def outerCatch (msg : String) : Response :=
  if is404 msg then Response.err expiredErrorMsg 400
  else Response.err (if msg = "" then "Failed to generate video" else msg) 500

/-- `modelConfig?.modelId || DEFAULT_MODEL` (empty string is falsy). -/
def resolveModelId (modelConfigId : Option String) : String :=
  match modelConfigId with
  | some m => if m = "" then DEFAULT_MODEL else m
  | none => DEFAULT_MODEL

/-- Embedding of `POST` in `generate-video/route.ts`, returning the list of
provider attempts made (in order) together with the HTTP response.
`proxy` stands for `proxyReplicateUrl` (defined in `utils/cdnProxy`, outside
the given sources; its value never influences control flow here). -/
def generateVideoPOST (provider : Provider) (proxy : String → String)
    (modelConfigId : Option String) (imageUrl : String) :
    List Attempt × Response :=
  if imageUrl = "" then ([], Response.err "Image URL is required" 400)
  else
    let modelId := resolveModelId modelConfigId
    let config := getModelConfig modelId
    let input := buildInput config imageUrl
    let a1 : Attempt := ⟨modelId, input⟩
    match provider modelId input with
    | Except.ok output => ([a1], Response.success (proxy output) modelId none)
    | Except.error msg =>
      if is404 msg then
        ([a1], Response.err expiredErrorMsg 400)
      else if modelId ≠ DEFAULT_MODEL then
        let dconfig := getModelConfig DEFAULT_MODEL
        let dinput := buildInput dconfig imageUrl
        let a2 : Attempt := ⟨DEFAULT_MODEL, dinput⟩
        match provider DEFAULT_MODEL dinput with
        | Except.ok output =>
          ([a1, a2], Response.success (proxy output) DEFAULT_MODEL
            (some ("Original model failed, used fallback: " ++ DEFAULT_MODEL)))
        | Except.error fmsg =>
          if is404 fmsg then ([a1, a2], Response.err expiredErrorMsg 400)
          else ([a1, a2], outerCatch fmsg)
      else ([a1], outerCatch msg)

/-- Marker detection on a response: the success `warning` field, or an error
message mentioning the default backend, a fallback, or a default. -/
def marksDefaultTried (r : Response) : Bool :=
  match r with
  | Response.success _ _ warning => warning.isSome
  | Response.err m _ =>
      containsSub m DEFAULT_MODEL || containsSub m "fallback" || containsSub m "default"

/-- A provider that fails generically on every attempt, with distinguishable
messages for the configured backend and the default backend. -/
def cexProvider : Provider := fun m _ =>
  Except.error (if m = DEFAULT_MODEL then "provider exploded again" else "provider exploded")

lemma getModelConfig_cases (m : String) :
    getModelConfig m ∈ MODEL_CONFIGS.map Prod.snd ∨ getModelConfig m = unknownModelConfig := by
  unfold getModelConfig
  cases h : MODEL_CONFIGS.find? (fun kv => containsSub m kv.1) with
  | none => exact Or.inr rfl
  | some kv => exact Or.inl (List.mem_map_of_mem Prod.snd (List.mem_of_find?_eq_some h))

lemma config_has_image_field (c : BackendConfig)
    (hc : c ∈ MODEL_CONFIGS.map Prod.snd ∨ c = unknownModelConfig) :
    (c.input_image || c.image) = true := by
  rcases hc with h | rfl
  · have hall : (MODEL_CONFIGS.map Prod.snd).all (fun c => c.input_image || c.image) = true := by
      decide
    exact List.all_eq_true.mp hall c h
  · decide

lemma buildInput_has_ref (c : BackendConfig) (u : String)
    (h : (c.input_image || c.image) = true) :
    ("input_image", JVal.str u) ∈ buildInput c u ∨ ("image", JVal.str u) ∈ buildInput c u := by
  unfold buildInput
  rw [Bool.or_eq_true] at h
  rcases h with h1 | h2
  · exact Or.inl (by rw [if_pos h1]; simp [List.mem_append])
  · exact Or.inr (by rw [if_pos h2]; simp [List.mem_append])

lemma getModelConfig_default_input_image :
    (getModelConfig DEFAULT_MODEL).input_image = true := by
  decide

lemma default_input_has_ref (u : String) :
    ("input_image", JVal.str u) ∈ buildInput (getModelConfig DEFAULT_MODEL) u := by
  unfold buildInput
  rw [if_pos getModelConfig_default_input_image]
  simp [List.mem_append]

/-- C2: when the provider reports an asset-expired failure (a 404/"Not
Found"-class message) on the first attempt, the resolver makes zero
additional attempts regardless of the configured backend and returns
immediately with the error directing the caller to regenerate the upstream
input image. -/
theorem no_retry_on_asset_expired
    (provider : Provider) (proxy : String → String) (m imageUrl msg : String)
    (hm : m ≠ "") (hu : imageUrl ≠ "")
    (hfail : provider m (buildInput (getModelConfig m) imageUrl) = Except.error msg)
    (h404 : is404 msg = true) :
    (generateVideoPOST provider proxy (some m) imageUrl).1 =
      [⟨m, buildInput (getModelConfig m) imageUrl⟩]
    ∧ (generateVideoPOST provider proxy (some m) imageUrl).2 = Response.err expiredErrorMsg 400
    ∧ containsSub expiredErrorMsg "regenerate the image" = true := by
  refine ⟨?_, ?_, by decide⟩ <;>
    simp [generateVideoPOST, resolveModelId, hu, hm, hfail, h404]

/-- Witness for `no_retry_on_asset_expired` at a concrete provider and
backend. -/
theorem no_retry_on_asset_expired_witness :
    (generateVideoPOST (fun _ _ => Except.error "HTTP 404 Not Found") id
        (some "kwaivgi/kling") "http://img").1 =
      [⟨"kwaivgi/kling", buildInput (getModelConfig "kwaivgi/kling") "http://img"⟩]
    ∧ (generateVideoPOST (fun _ _ => Except.error "HTTP 404 Not Found") id
        (some "kwaivgi/kling") "http://img").2 = Response.err expiredErrorMsg 400
    ∧ containsSub expiredErrorMsg "regenerate the image" = true :=
  no_retry_on_asset_expired (fun _ _ => Except.error "HTTP 404 Not Found") id
    "kwaivgi/kling" "http://img" "HTTP 404 Not Found"
    (by decide) (by decide) rfl (by decide)

/-- C1 counterexample: with a non-default backend failing generically on both
attempts, the second failure is surfaced exactly as the raw fallback error
(status 500) and the response carries no marker that the default backend was
also tried — refuting the "with a marker" part of the claim. -/
theorem second_failure_has_no_marker_cex :
    (generateVideoPOST cexProvider id (some "other/model") "http://img").2
      = Response.err "provider exploded again" 500
    ∧ marksDefaultTried
        (generateVideoPOST cexProvider id (some "other/model") "http://img").2 = false := by
  exact ⟨by decide, by decide⟩

/-- C1 (amended): for a non-default backend failing with a generic error,
exactly one additional attempt is made against the default backend with the
same input asset reference; a second generic failure is surfaced as-is
(raw message, status 500, no marker added); if the configured backend is the
default, no additional attempt is made. -/
theorem exactly_one_fallback_retry
    (provider : Provider) (proxy : String → String) (m imageUrl msg : String)
    (hm : m ≠ "") (hmd : m ≠ DEFAULT_MODEL) (hu : imageUrl ≠ "")
    (hfail : provider m (buildInput (getModelConfig m) imageUrl) = Except.error msg)
    (h404 : is404 msg = false) :
    (generateVideoPOST provider proxy (some m) imageUrl).1 =
      [⟨m, buildInput (getModelConfig m) imageUrl⟩,
       ⟨DEFAULT_MODEL, buildInput (getModelConfig DEFAULT_MODEL) imageUrl⟩]
    ∧ (("input_image", JVal.str imageUrl) ∈ buildInput (getModelConfig m) imageUrl
        ∨ ("image", JVal.str imageUrl) ∈ buildInput (getModelConfig m) imageUrl)
    ∧ ("input_image", JVal.str imageUrl) ∈ buildInput (getModelConfig DEFAULT_MODEL) imageUrl
    ∧ (∀ fmsg : String,
        provider DEFAULT_MODEL (buildInput (getModelConfig DEFAULT_MODEL) imageUrl)
          = Except.error fmsg →
        is404 fmsg = false → fmsg ≠ "" →
        (generateVideoPOST provider proxy (some m) imageUrl).2 = Response.err fmsg 500)
    ∧ (∀ dmsg : String,
        provider DEFAULT_MODEL (buildInput (getModelConfig DEFAULT_MODEL) imageUrl)
          = Except.error dmsg →
        is404 dmsg = false →
        (generateVideoPOST provider proxy (some DEFAULT_MODEL) imageUrl).1 =
          [⟨DEFAULT_MODEL, buildInput (getModelConfig DEFAULT_MODEL) imageUrl⟩]) := by
  have hD : DEFAULT_MODEL ≠ "" := by decide
  refine ⟨?_, ?_, ?_, ?_, ?_⟩
  · cases hP : provider DEFAULT_MODEL (buildInput (getModelConfig DEFAULT_MODEL) imageUrl) with
    | ok o => simp [generateVideoPOST, resolveModelId, hu, hm, hmd, hfail, h404, hP]
    | error f =>
      by_cases hf : is404 f = true <;>
        simp [generateVideoPOST, resolveModelId, hu, hm, hmd, hfail, h404, hP, hf]
  · exact buildInput_has_ref _ _ (config_has_image_field _ (getModelConfig_cases m))
  · exact default_input_has_ref imageUrl
  · intro fmsg hfb hfb404 hfbne
    simp [generateVideoPOST, resolveModelId, outerCatch, hu, hm, hmd, hfail, h404,
      hfb, hfb404, hfbne]
  · intro dmsg hdf hd404
    simp [generateVideoPOST, resolveModelId, hu, hD, hdf, hd404]

/-- Witness for `exactly_one_fallback_retry` at a concrete always-failing
provider. -/
theorem exactly_one_fallback_retry_witness :
    (generateVideoPOST cexProvider id (some "other/model") "http://img").1.length = 2
    ∧ ("input_image", JVal.str "http://img")
        ∈ buildInput (getModelConfig DEFAULT_MODEL) "http://img"
    ∧ (generateVideoPOST cexProvider id (some "other/model") "http://img").2
        = Response.err "provider exploded again" 500
    ∧ (generateVideoPOST cexProvider id (some DEFAULT_MODEL) "http://img").1.length = 1 := by
  have h := exactly_one_fallback_retry cexProvider id "other/model" "http://img"
    "provider exploded" (by decide) (by decide) (by decide) rfl (by decide)
  refine ⟨?_, h.2.2.1, ?_, ?_⟩
  · rw [h.1]; rfl
  · exact h.2.2.2.1 "provider exploded again" rfl (by decide) (by decide)
  · rw [h.2.2.2.2 "provider exploded again" rfl (by decide)]; rfl

/-! ## Entity model (`stores/StoryStore.ts`) -/

/-- `Shot` from `StoryStore.ts`; optional booleans are falsy when absent. -/
structure Shot where
  id : String
  subtitle : String := ""
  location : String := ""
  content : String := ""
  imageUrl : Option String := none
  isGenerating : Bool := false
  isAnimating : Bool := false
  animationUrl : Option String := none
  audioUrl : Option String := none
  isGeneratingAudio : Bool := false
deriving DecidableEq, Repr

/-- `Character` from `StoryStore.ts`. -/
structure Character where
  name : String
  description : String := ""
  prompt : Option String := none
  referenceImageUrl : Option String := none
  isGenerating : Bool := false
deriving DecidableEq, Repr

/-- `Scene` from `StoryStore.ts`. -/
structure Scene where
  id : String
  title : String := ""
  description : String := ""
  shots : List Shot := []
deriving DecidableEq, Repr

/-- `StoryData` from `StoryStore.ts`. -/
structure StoryData where
  title : String := ""
  synopsis : String := ""
  characters : List Character := []
  scenes : List Scene := []
  style : Option String := none
  aspectRatio : Option String := none
deriving DecidableEq, Repr

/-- JavaScript falsiness of an optional asset reference: absent or the empty
string (`!shot.imageUrl` and friends). -/
def refEmpty : Option String → Bool
  | none => true
  | some s => s == ""

/-! ## Wave scheduler (`Storyboard.generateAllImages`,
`EditView.animateSelected`, `AudioGenerator.generateAllAudio`)

All three follow the same loop shape:
`for (let i = 0; i < jobs.length; i += concurrency) { await Promise.all(batch); if (i + concurrency < jobs.length) await delay(ms); }`. -/

/-- Fuel-indexed chunking of a worklist into consecutive slices of size `c`
(the loop `jobs.slice(i, i + c)` for `i = 0, c, 2c, ...`). -/
def chunksAux (c : Nat) : Nat → List α → List (List α)
  | 0, _ => []
  | _ + 1, [] => []
  | fuel + 1, x :: xs => (x :: xs).take c :: chunksAux c fuel ((x :: xs).drop c)

/-- The waves of the scheduling loop. -/
def chunks (c : Nat) (l : List α) : List (List α) :=
  chunksAux c l.length l

/-- One observable step of a batch run: a wave of concurrently-running jobs,
or a fixed inter-wave `setTimeout` delay (milliseconds). -/
inductive SchedEvent (α : Type) : Type
  | wave (jobs : List α)
  | delay (ms : Nat)
deriving DecidableEq, Repr

/-- Interleave a fixed delay between consecutive waves — the delay is taken
only while more jobs remain (`if (i + concurrency < jobs.length)`). -/
def interleaveDelays (ms : Nat) : List (List α) → List (SchedEvent α)
  | [] => []
  | [w] => [SchedEvent.wave w]
  | w :: w2 :: rest =>
      SchedEvent.wave w :: SchedEvent.delay ms :: interleaveDelays ms (w2 :: rest)

/-- The sequential trace of one batch: waves in order, each separated by the
fixed inter-wave delay; a wave starts only after the previous wave's
`Promise.all` resolved and the delay elapsed. -/
def waveTrace (c ms : Nat) (jobs : List α) : List (SchedEvent α) :=
  interleaveDelays ms (chunks c jobs)

/-- The waves of a trace, in order. -/
def wavesOf (t : List (SchedEvent α)) : List (List α) :=
  t.filterMap (fun e => match e with | SchedEvent.wave w => some w | SchedEvent.delay _ => none)

/-- The delays of a trace, in order. -/
def delaysOf (t : List (SchedEvent α)) : List Nat :=
  t.filterMap (fun e => match e with | SchedEvent.wave _ => none | SchedEvent.delay m => some m)

/-- The trace alternates wave, delay, wave, ..., ending on a wave, with every
delay equal to `ms`. -/
def altCheck (ms : Nat) : List (SchedEvent α) → Bool
  | [] => true
  | [SchedEvent.wave _] => true
  | SchedEvent.wave _ :: SchedEvent.delay m :: e :: rest =>
      (m == ms) && altCheck ms (e :: rest)
  | _ => false

/-- `generateAllImages` (Storyboard): concurrency 5, 500 ms between waves. -/
def generateAllImagesTrace (jobs : List α) : List (SchedEvent α) :=
  waveTrace 5 500 jobs

/-- `animateSelected` (EditView): concurrency 3, 1000 ms between waves. -/
def animateSelectedTrace (jobs : List α) : List (SchedEvent α) :=
  waveTrace 3 1000 jobs

/-- `generateAllAudio` (AudioGenerator): concurrency 10, 200 ms between waves. -/
def generateAllAudioTrace (jobs : List α) : List (SchedEvent α) :=
  waveTrace 10 200 jobs

lemma chunksAux_nil (c fuel : Nat) : chunksAux c fuel ([] : List α) = [] := by
  cases fuel <;> rfl

lemma chunksAux_join (c : Nat) (hc : 0 < c) :
    ∀ (fuel : Nat) (l : List α), l.length ≤ fuel → (chunksAux c fuel l).flatten = l := by
  intro fuel
  induction fuel with
  | zero =>
    intro l hl
    rw [List.length_eq_zero.mp (Nat.le_zero.mp hl)]
    rfl
  | succ n ih =>
    intro l hl
    cases l with
    | nil => rfl
    | cons x xs =>
      have hdrop : ((x :: xs).drop c).length ≤ n := by
        rw [List.length_drop]
        have : (x :: xs).length ≤ n + 1 := hl
        omega
      simp only [chunksAux, List.flatten_cons]
      rw [ih _ hdrop, List.take_append_drop]

lemma chunksAux_mem_le (c : Nat) :
    ∀ (fuel : Nat) (l : List α) (w : List α), w ∈ chunksAux c fuel l → w.length ≤ c := by
  intro fuel
  induction fuel with
  | zero => intro l w hw; simp [chunksAux] at hw
  | succ n ih =>
    intro l w hw
    cases l with
    | nil => simp [chunksAux] at hw
    | cons x xs =>
      simp only [chunksAux, List.mem_cons] at hw
      rcases hw with rfl | hw
      · simp [List.length_take]
      · exact ih _ _ hw

lemma chunksAux_dropLast_eq (c : Nat) :
    ∀ (fuel : Nat) (l : List α) (w : List α), w ∈ (chunksAux c fuel l).dropLast →
      w.length = c := by
  intro fuel
  induction fuel with
  | zero => intro l w hw; simp [chunksAux] at hw
  | succ n ih =>
    intro l w hw
    cases l with
    | nil => simp [chunksAux] at hw
    | cons x xs =>
      simp only [chunksAux] at hw
      cases hrest : chunksAux c n ((x :: xs).drop c) with
      | nil => rw [hrest] at hw; simp at hw
      | cons r rs =>
        rw [hrest, List.dropLast_cons_of_ne_nil (by simp), List.mem_cons] at hw
        rcases hw with rfl | hw
        · have hne : (x :: xs).drop c ≠ [] := by
            intro h0
            rw [h0, chunksAux_nil] at hrest
            exact List.noConfusion hrest
          have hlt : c < (x :: xs).length := by
            by_contra hge
            exact hne (List.drop_eq_nil_of_le (Nat.le_of_not_lt hge))
          have : c ≤ xs.length + 1 := by
            simp only [List.length_cons] at hlt
            omega
          simp [List.length_take, Nat.min_eq_left this]
        · exact ih _ _ (by rw [hrest]; exact hw)

lemma wavesOf_interleave (ms : Nat) :
    ∀ ws : List (List α), wavesOf (interleaveDelays ms ws) = ws
  | [] => rfl
  | [w] => rfl
  | w :: w2 :: rest => by
    simp only [interleaveDelays, wavesOf, List.filterMap]
    have := wavesOf_interleave ms (w2 :: rest)
    simp only [wavesOf] at this
    simp [this]

lemma delaysOf_interleave (ms : Nat) :
    ∀ ws : List (List α), delaysOf (interleaveDelays ms ws) = List.replicate (ws.length - 1) ms
  | [] => rfl
  | [w] => rfl
  | w :: w2 :: rest => by
    simp only [interleaveDelays, delaysOf, List.filterMap]
    have := delaysOf_interleave ms (w2 :: rest)
    simp only [delaysOf] at this
    simp [this, List.replicate_succ]

lemma altCheck_interleave (ms : Nat) :
    ∀ ws : List (List α), altCheck ms (interleaveDelays ms ws) = true
  | [] => rfl
  | [w] => rfl
  | w :: w2 :: rest => by
    have := altCheck_interleave (α := α) ms (w2 :: rest)
    cases hrec : interleaveDelays ms (w2 :: rest) with
    | nil =>
      exact absurd hrec (by cases rest <;> simp [interleaveDelays])
    | cons e es =>
      simp only [interleaveDelays, altCheck, hrec]
      rw [hrec] at this
      simp [this]

/-- Bundle of the wave-structure facts for one scheduling loop. -/
lemma waveTrace_spec (c ms : Nat) (hc : 0 < c) (jobs : List α) :
    (wavesOf (waveTrace c ms jobs)).flatten = jobs
    ∧ (∀ w ∈ wavesOf (waveTrace c ms jobs), w.length ≤ c)
    ∧ (∀ w ∈ (wavesOf (waveTrace c ms jobs)).dropLast, w.length = c)
    ∧ delaysOf (waveTrace c ms jobs)
        = List.replicate ((wavesOf (waveTrace c ms jobs)).length - 1) ms
    ∧ altCheck ms (waveTrace c ms jobs) = true := by
  unfold waveTrace
  rw [wavesOf_interleave, delaysOf_interleave, altCheck_interleave]
  refine ⟨chunksAux_join c hc _ _ (Nat.le_refl _), ?_, ?_, rfl, rfl⟩
  · exact fun w hw => chunksAux_mem_le c _ _ w hw
  · exact fun w hw => chunksAux_dropLast_eq c _ _ w hw

/-- C3: each batch runs in waves of the per-kind concurrency limit (5 image,
3 video, 10 audio); every wave is at most that size (so at no point do more
jobs run concurrently), all waves but the last are exactly that size, the
waves cover the worklist in order, and consecutive waves are separated by
the fixed per-kind delay (500 ms image, 1000 ms video, 200 ms audio). -/
theorem scheduler_wave_structure (jobs : List Nat) :
    ((wavesOf (generateAllImagesTrace jobs)).flatten = jobs
      ∧ (∀ w ∈ wavesOf (generateAllImagesTrace jobs), w.length ≤ 5)
      ∧ (∀ w ∈ (wavesOf (generateAllImagesTrace jobs)).dropLast, w.length = 5)
      ∧ delaysOf (generateAllImagesTrace jobs)
          = List.replicate ((wavesOf (generateAllImagesTrace jobs)).length - 1) 500
      ∧ altCheck 500 (generateAllImagesTrace jobs) = true)
    ∧ ((wavesOf (animateSelectedTrace jobs)).flatten = jobs
      ∧ (∀ w ∈ wavesOf (animateSelectedTrace jobs), w.length ≤ 3)
      ∧ (∀ w ∈ (wavesOf (animateSelectedTrace jobs)).dropLast, w.length = 3)
      ∧ delaysOf (animateSelectedTrace jobs)
          = List.replicate ((wavesOf (animateSelectedTrace jobs)).length - 1) 1000
      ∧ altCheck 1000 (animateSelectedTrace jobs) = true)
    ∧ ((wavesOf (generateAllAudioTrace jobs)).flatten = jobs
      ∧ (∀ w ∈ wavesOf (generateAllAudioTrace jobs), w.length ≤ 10)
      ∧ (∀ w ∈ (wavesOf (generateAllAudioTrace jobs)).dropLast, w.length = 10)
      ∧ delaysOf (generateAllAudioTrace jobs)
          = List.replicate ((wavesOf (generateAllAudioTrace jobs)).length - 1) 200
      ∧ altCheck 200 (generateAllAudioTrace jobs) = true) :=
  ⟨waveTrace_spec 5 500 (by decide) jobs,
   waveTrace_spec 3 1000 (by decide) jobs,
   waveTrace_spec 10 200 (by decide) jobs⟩

/-- Witness for `scheduler_wave_structure`: seven image jobs split into a wave
of five and a wave of two, with one 500 ms delay between them. -/
theorem scheduler_wave_structure_witness :
    (wavesOf (generateAllImagesTrace [0, 1, 2, 3, 4, 5, 6])).flatten = [0, 1, 2, 3, 4, 5, 6]
    ∧ [0, 1, 2, 3, 4].length ≤ 5
    ∧ [0, 1, 2, 3, 4].length = 5
    ∧ delaysOf (generateAllImagesTrace [0, 1, 2, 3, 4, 5, 6]) = [500] := by
  have h := scheduler_wave_structure [0, 1, 2, 3, 4, 5, 6]
  refine ⟨h.1.1, ?_, ?_, ?_⟩
  · exact h.1.2.1 [0, 1, 2, 3, 4] (by decide)
  · exact h.1.2.2.1 [0, 1, 2, 3, 4] (by decide)
  · have := h.1.2.2.2.1
    rw [this]
    decide

/-! ## Per-job handlers (`Storyboard.generateImage`, `EditView.animateShot`)

Each handler sets the in-progress flag, performs the provider call, and on
either outcome clears the flag again; every error is caught inside the
handler, so the surrounding `Promise.all` never rejects. -/

/-- `Storyboard.generateImage`: flag up, call the image API, write back the
result; on failure only the flag is cleared (error is caught and alerted). -/
def generateImage (provider : Shot → Except String String) (shot : Shot) : Shot :=
  let s := { shot with isGenerating := true }
  match provider shot with
  | Except.ok url => { s with imageUrl := some url, isGenerating := false }
  | Except.error _ => { s with isGenerating := false }

/-- `EditView.animateShot`: returns unchanged when no image exists, else flag
up, call the video API, write back; on failure only the flag is cleared. -/
def animateShot (provider : Shot → Except String String) (shot : Shot) : Shot :=
  if refEmpty shot.imageUrl then shot
  else
    let s := { shot with isAnimating := true }
    match provider shot with
    | Except.ok url => { s with animationUrl := some url, isAnimating := false }
    | Except.error _ => { s with isAnimating := false }

/-- Running a batch: the wave loop applies the handler to every job of every
wave, collecting results in order. -/
def runWaves (c : Nat) (handler : α → β) (jobs : List α) : List β :=
  ((chunks c jobs).map (fun w => w.map handler)).flatten

lemma chunksAux_map_flatten (c : Nat) (hc : 0 < c) (handler : α → β) :
    ∀ (fuel : Nat) (l : List α), l.length ≤ fuel →
      ((chunksAux c fuel l).map (fun w => w.map handler)).flatten = l.map handler := by
  intro fuel
  induction fuel with
  | zero =>
    intro l hl
    rw [List.length_eq_zero.mp (Nat.le_zero.mp hl)]
    rfl
  | succ n ih =>
    intro l hl
    cases l with
    | nil => rfl
    | cons x xs =>
      have hdrop : ((x :: xs).drop c).length ≤ n := by
        rw [List.length_drop]
        have : (x :: xs).length ≤ n + 1 := hl
        omega
      simp only [chunksAux, List.map_cons, List.flatten_cons]
      rw [ih _ hdrop, ← List.map_append, List.take_append_drop]
      rfl

lemma runWaves_eq_map (c : Nat) (hc : 0 < c) (handler : α → β) (jobs : List α) :
    runWaves c handler jobs = jobs.map handler :=
  chunksAux_map_flatten c hc handler _ _ (Nat.le_refl _)

/-- C4: a batch of `n` submitted jobs yields exactly `n` results; the batch
result is the independent per-job map of the handler, so one job's failure
cannot cancel or change sibling jobs; a failed job is recorded locally by
clearing the entity's in-progress flag (and only that). -/
theorem batch_completes_all_jobs
    (c : Nat) (hc : 0 < c) (provider : Shot → Except String String) (jobs : List Shot) :
    (runWaves c (generateImage provider) jobs).length = jobs.length
    ∧ runWaves c (generateImage provider) jobs = jobs.map (generateImage provider)
    ∧ (∀ shot e, provider shot = Except.error e →
        generateImage provider shot = { shot with isGenerating := false })
    ∧ (∀ shot url, provider shot = Except.ok url →
        generateImage provider shot
          = { shot with imageUrl := some url, isGenerating := false })
    ∧ (∀ shot e, refEmpty shot.imageUrl = false → provider shot = Except.error e →
        animateShot provider shot = { shot with isAnimating := false }) := by
  refine ⟨?_, runWaves_eq_map c hc _ jobs, ?_, ?_, ?_⟩
  · rw [runWaves_eq_map c hc _ jobs, List.length_map]
  · intro shot e he; simp [generateImage, he]
  · intro shot url hu; simp [generateImage, hu]
  · intro shot e href he; simp [animateShot, href, he]

/-- Witness for `batch_completes_all_jobs`: two shots, the provider failing
on the first and succeeding on the second. -/
theorem batch_completes_all_jobs_witness :
    (runWaves 5 (generateImage
        (fun s => if s.id = "a" then Except.error "boom" else Except.ok "http://url"))
        [{ id := "a" }, { id := "b" }]).length = 2
    ∧ generateImage
        (fun s => if s.id = "a" then Except.error "boom" else Except.ok "http://url")
        { id := "a" } = { id := "a", isGenerating := false }
    ∧ generateImage
        (fun s => if s.id = "a" then Except.error "boom" else Except.ok "http://url")
        { id := "b" } = { id := "b", imageUrl := some "http://url", isGenerating := false } := by
  have h := batch_completes_all_jobs 5 (by decide)
    (fun s => if s.id = "a" then Except.error "boom" else Except.ok "http://url")
    [{ id := "a" }, { id := "b" }]
  refine ⟨h.1, ?_, ?_⟩
  · exact h.2.2.1 { id := "a" } "boom" rfl
  · exact h.2.2.2.1 { id := "b" } "http://url" rfl

/-! ## Mount-time stale-flag resets (`Storyboard` / `EditView` mount effects) -/

/-- Storyboard mount: `shot.isGenerating && !shot.imageUrl` → clear the flag. -/
def resetShotStoryboard (sh : Shot) : Shot :=
  if sh.isGenerating && refEmpty sh.imageUrl then { sh with isGenerating := false } else sh

/-- Storyboard mount: `char.isGenerating && !char.referenceImageUrl` → clear. -/
def resetCharacterStoryboard (ch : Character) : Character :=
  if ch.isGenerating && refEmpty ch.referenceImageUrl then { ch with isGenerating := false }
  else ch

/-- EditView mount: clear `isAnimating` without `animationUrl`, then clear
`isGeneratingAudio` without `audioUrl`. -/
def resetShotEditView (sh : Shot) : Shot :=
  let s1 := if sh.isAnimating && refEmpty sh.animationUrl then { sh with isAnimating := false }
            else sh
  if s1.isGeneratingAudio && refEmpty s1.audioUrl then { s1 with isGeneratingAudio := false }
  else s1

/-- The `Storyboard` mount effect over the whole story tree. -/
def storyboardMountReset (st : StoryData) : StoryData :=
  { st with
    scenes := st.scenes.map (fun sc => { sc with shots := sc.shots.map resetShotStoryboard })
    characters := st.characters.map resetCharacterStoryboard }

/-- The `EditView` mount effect over the whole story tree. -/
def editViewMountReset (st : StoryData) : StoryData :=
  { st with
    scenes := st.scenes.map (fun sc => { sc with shots := sc.shots.map resetShotEditView }) }

/-- A shot is stale when some in-progress flag is set while the matching
asset reference is empty. -/
def shotStale (sh : Shot) : Bool :=
  (sh.isGenerating && refEmpty sh.imageUrl)
  || (sh.isAnimating && refEmpty sh.animationUrl)
  || (sh.isGeneratingAudio && refEmpty sh.audioUrl)

/-- Some shot or character of the story is stale. -/
def hasStaleFlags (st : StoryData) : Bool :=
  st.scenes.any (fun sc => sc.shots.any shotStale)
  || st.characters.any (fun ch => ch.isGenerating && refEmpty ch.referenceImageUrl)

lemma resetShotStoryboard_eq (sh : Shot) :
    resetShotStoryboard sh
      = { sh with isGenerating := sh.isGenerating && !(refEmpty sh.imageUrl) } := by
  cases sh
  cases hg : Shot.isGenerating _ <;> cases he : refEmpty (Shot.imageUrl _) <;>
    simp_all [resetShotStoryboard]

lemma resetCharacterStoryboard_eq (ch : Character) :
    resetCharacterStoryboard ch
      = { ch with isGenerating := ch.isGenerating && !(refEmpty ch.referenceImageUrl) } := by
  cases ch
  cases hg : Character.isGenerating _ <;> cases he : refEmpty (Character.referenceImageUrl _) <;>
    simp_all [resetCharacterStoryboard]

lemma resetShotEditView_eq (sh : Shot) :
    resetShotEditView sh
      = { sh with
          isAnimating := sh.isAnimating && !(refEmpty sh.animationUrl)
          isGeneratingAudio := sh.isGeneratingAudio && !(refEmpty sh.audioUrl) } := by
  cases sh
  cases ha : Shot.isAnimating _ <;> cases hb : refEmpty (Shot.animationUrl _) <;>
    cases hc : Shot.isGeneratingAudio _ <;> cases hd : refEmpty (Shot.audioUrl _) <;>
      simp_all [resetShotEditView]

lemma shot_reset_not_stale (sh : Shot) :
    shotStale (resetShotEditView (resetShotStoryboard sh)) = false := by
  rw [resetShotStoryboard_eq, resetShotEditView_eq]
  cases sh
  simp only [shotStale]
  cases refEmpty _ <;> cases refEmpty _ <;> cases refEmpty _ <;> simp

lemma char_reset_not_stale (ch : Character) :
    ((resetCharacterStoryboard ch).isGenerating
      && refEmpty (resetCharacterStoryboard ch).referenceImageUrl) = false := by
  rw [resetCharacterStoryboard_eq]
  cases ch
  cases refEmpty _ <;> simp

/-- C8: after the mount-time resets run (before any new jobs are issued), no
shot or character is left with an in-progress flag set while its asset
reference is empty; each reset clears exactly the stale flags and touches
nothing else, so stale entities become selectable again. -/
theorem stale_flags_cleared_on_mount (st : StoryData) :
    hasStaleFlags (editViewMountReset (storyboardMountReset st)) = false
    ∧ (∀ sh : Shot, resetShotStoryboard sh
        = { sh with isGenerating := sh.isGenerating && !(refEmpty sh.imageUrl) })
    ∧ (∀ sh : Shot, resetShotEditView sh
        = { sh with
            isAnimating := sh.isAnimating && !(refEmpty sh.animationUrl)
            isGeneratingAudio := sh.isGeneratingAudio && !(refEmpty sh.audioUrl) })
    ∧ (∀ ch : Character, resetCharacterStoryboard ch
        = { ch with isGenerating := ch.isGenerating && !(refEmpty ch.referenceImageUrl) }) := by
  refine ⟨?_, resetShotStoryboard_eq, resetShotEditView_eq, resetCharacterStoryboard_eq⟩
  unfold hasStaleFlags editViewMountReset storyboardMountReset
  simp [List.any_map, Function.comp, shot_reset_not_stale, char_reset_not_stale]

/-! ## Duration normalizer (`utils/audioExtender.ts`) -/

/-- A decoded Web Audio `AudioBuffer`: sample rate in Hz, frame count
(`length`), and per-channel sample data (each channel holds `len` samples
in [-1, 1]). -/
structure AudioBuffer where
  sampleRate : Nat
  len : Nat
  channels : List (List ℚ)
deriving DecidableEq, Repr

/-- `AudioBuffer.numberOfChannels`. -/
def AudioBuffer.numberOfChannels (b : AudioBuffer) : Nat := b.channels.length

/-- `AudioBuffer.duration` (seconds): frame count over sample rate. -/
def AudioBuffer.duration (b : AudioBuffer) : ℚ := (b.len : ℚ) / (b.sampleRate : ℚ)

/-- Core of `extendAudioToTargetDuration` between decode and re-encode: if
the input is already long enough it is returned unchanged; otherwise a new
buffer of `Math.ceil(targetDuration * sampleRate)` frames is allocated at
the same sample rate and channel count, each channel's samples are copied
at offset 0 (`extendedData.set(originalData)`), and the zero-initialized
remainder is left as silence. -/
def extendAudioToTargetDuration (buf : AudioBuffer) (targetDuration : ℚ) : AudioBuffer :=
  if targetDuration ≤ buf.duration then buf
  else
    let newLen : Nat := (Int.ceil (targetDuration * (buf.sampleRate : ℚ))).toNat
    { sampleRate := buf.sampleRate
      len := newLen
      channels := buf.channels.map (fun ch => ch ++ List.replicate (newLen - ch.length) 0) }

/-- C5: an input at least as long as the target passes through unchanged; a
shorter input yields a buffer of exactly the target duration at the same
sample rate and channel count, whose first `originalDuration` seconds are
the input samples copied at offset 0 and whose remainder is appended
silence. -/
theorem duration_normalizer_pads_with_trailing_silence
    (buf : AudioBuffer) (t : ℕ)
    (hsr : 0 < buf.sampleRate)
    (hinv : ∀ ch ∈ buf.channels, ch.length = buf.len) :
    (((t : ℚ)) ≤ buf.duration → extendAudioToTargetDuration buf (t : ℚ) = buf)
    ∧ (buf.duration < (t : ℚ) →
        (extendAudioToTargetDuration buf (t : ℚ)).duration = (t : ℚ)
        ∧ (extendAudioToTargetDuration buf (t : ℚ)).sampleRate = buf.sampleRate
        ∧ (extendAudioToTargetDuration buf (t : ℚ)).numberOfChannels = buf.numberOfChannels
        ∧ (extendAudioToTargetDuration buf (t : ℚ)).len = t * buf.sampleRate
        ∧ (extendAudioToTargetDuration buf (t : ℚ)).channels
            = buf.channels.map
                (fun ch => ch ++ List.replicate (t * buf.sampleRate - buf.len) 0)
        ∧ (∀ ch ∈ buf.channels,
            (ch ++ List.replicate (t * buf.sampleRate - buf.len) (0 : ℚ)).take buf.len = ch
            ∧ (ch ++ List.replicate (t * buf.sampleRate - buf.len) (0 : ℚ)).drop buf.len
                = List.replicate (t * buf.sampleRate - buf.len) 0)) := by
  have hsrQ : ((buf.sampleRate : ℚ)) ≠ 0 := by
    exact_mod_cast Nat.pos_iff_ne_zero.mp hsr
  constructor
  · intro hle
    unfold extendAudioToTargetDuration
    rw [if_pos hle]
  · intro hlt
    have hnotle : ¬ ((t : ℚ) ≤ buf.duration) := not_le.mpr hlt
    have hcast : (t : ℚ) * (buf.sampleRate : ℚ) = ((t * buf.sampleRate : ℕ) : ℚ) := by
      push_cast
      ring
    have hceil : (Int.ceil ((t : ℚ) * (buf.sampleRate : ℚ))).toNat = t * buf.sampleRate := by
      rw [hcast, Int.ceil_natCast, Int.toNat_natCast]
    have hres : extendAudioToTargetDuration buf (t : ℚ)
        = { sampleRate := buf.sampleRate
            len := t * buf.sampleRate
            channels := buf.channels.map
              (fun ch => ch ++ List.replicate (t * buf.sampleRate - ch.length) 0) } := by
      unfold extendAudioToTargetDuration
      rw [if_neg hnotle]
      simp only [hceil]
    refine ⟨?_, ?_, ?_, ?_, ?_, ?_⟩
    · rw [hres]
      unfold AudioBuffer.duration
      simp only
      rw [hcast.symm]
      exact mul_div_cancel_right₀ _ hsrQ
    · rw [hres]
    · rw [hres]
      unfold AudioBuffer.numberOfChannels
      simp
    · rw [hres]
    · rw [hres]
      simp only
      exact List.map_congr_left (fun ch hch => by rw [hinv ch hch])
    · intro ch hch
      constructor
      · rw [← hinv ch hch]
        exact List.take_left ch _
      · rw [← hinv ch hch]
        exact List.drop_left _ _

/-- Witness for `duration_normalizer_pads_with_trailing_silence`: a 1-second
stereo-rate-2 buffer padded to 3 seconds. -/
theorem duration_normalizer_witness :
    (extendAudioToTargetDuration ⟨2, 2, [[1, -1]]⟩ ((3 : ℕ) : ℚ)).len = 6
    ∧ (extendAudioToTargetDuration ⟨2, 2, [[1, -1]]⟩ ((3 : ℕ) : ℚ)).duration = ((3 : ℕ) : ℚ)
    ∧ (extendAudioToTargetDuration ⟨2, 2, [[1, -1]]⟩ ((3 : ℕ) : ℚ)).channels
        = [[1, -1, 0, 0, 0, 0]] := by
  have h := (duration_normalizer_pads_with_trailing_silence ⟨2, 2, [[1, -1]]⟩ 3
    (by decide) (by decide)).2
    (by unfold AudioBuffer.duration; norm_num)
  refine ⟨?_, h.1, ?_⟩
  · rw [h.2.2.2.1]
    rfl
  · rw [h.2.2.2.2.1]
    rfl


/-! ## WAV re-encoding (`audioBufferToDataUrl` in `utils/audioExtender.ts`) -/

/-- `DataView.setUint16(offset, n, true)`: two little-endian bytes. -/
def u16le (n : Nat) : List Nat := [n % 256, n / 256 % 256]

/-- `DataView.setUint32(offset, n, true)`: four little-endian bytes. -/
def u32le (n : Nat) : List Nat :=
  [n % 256, n / 256 % 256, n / 65536 % 256, n / 16777216 % 256]

/-- `writeString`: one byte per character code. -/
def asciiBytes (s : String) : List Nat := s.toList.map Char.toNat

/-- `Math.max(-1, Math.min(1, sample))`. -/
def clampSample (q : ℚ) : ℚ := max (-1) (min 1 q)

/-- JavaScript integer conversion of a rational: truncation toward zero. -/
def ratTrunc (q : ℚ) : Int := q.num.tdiv (q.den : Int)

/-- The per-sample quantization `Math.max(-1, Math.min(1, sample)) * 0x7FFF`
followed by `setInt16`'s integer conversion. -/
def sampleToInt16 (q : ℚ) : Int := ratTrunc (clampSample q * 32767)

/-- `setInt16(offset, i, true)`: two little-endian bytes of the two's
complement representation. -/
def i16le (i : Int) : List Nat := u16le (i % 65536).toNat

/-- The interleaved PCM data section: frames in order, channels within a
frame in order, each sample as 16-bit little-endian. -/
def pcmBytes (buf : AudioBuffer) : List Nat :=
  ((List.range buf.len).map (fun i =>
    (buf.channels.map (fun ch => i16le (sampleToInt16 (ch.getD i 0)))).flatten)).flatten

/-- The RIFF/WAVE header written byte-for-byte by `audioBufferToDataUrl`
(offsets 0–43). -/
def wavHeader (buf : AudioBuffer) : List Nat :=
  asciiBytes "RIFF"
    ++ u32le (36 + buf.len * buf.numberOfChannels * 2)
    ++ asciiBytes "WAVE"
    ++ asciiBytes "fmt "
    ++ u32le 16
    ++ u16le 1
    ++ u16le buf.numberOfChannels
    ++ u32le buf.sampleRate
    ++ u32le (buf.sampleRate * buf.numberOfChannels * 2)
    ++ u16le (buf.numberOfChannels * 2)
    ++ u16le 16
    ++ asciiBytes "data"
    ++ u32le (buf.len * buf.numberOfChannels * 2)

/-- The byte content of the WAV file produced by `audioBufferToDataUrl`
(before base64 wrapping into a data URL). -/
def audioBufferToWavBytes (buf : AudioBuffer) : List Nat :=
  wavHeader buf ++ pcmBytes buf

/-- Little-endian decoding of two bytes. -/
def decodeU16 (b : List Nat) : Nat := b.getD 0 0 + 256 * b.getD 1 0

/-- Little-endian decoding of four bytes. -/
def decodeU32 (b : List Nat) : Nat :=
  b.getD 0 0 + 256 * b.getD 1 0 + 65536 * b.getD 2 0 + 16777216 * b.getD 3 0

lemma wavHeader_length (buf : AudioBuffer) : (wavHeader buf).length = 44 := rfl

lemma pcmBytes_length (buf : AudioBuffer) :
    (pcmBytes buf).length = buf.len * buf.numberOfChannels * 2 := by
  unfold pcmBytes
  rw [List.length_flatten, List.map_map]
  have hinner : ∀ i : Nat,
      ((buf.channels.map (fun ch => i16le (sampleToInt16 (ch.getD i 0)))).flatten).length
        = buf.numberOfChannels * 2 := by
    intro i
    rw [List.length_flatten, List.map_map]
    have : (List.length ∘ fun ch => i16le (sampleToInt16 (ch.getD i 0)))
        = fun _ : List ℚ => 2 := by
      funext ch
      rfl
    rw [this, List.map_const', List.sum_replicate, smul_eq_mul]
    unfold AudioBuffer.numberOfChannels
    ring
  have : List.map (List.length ∘ fun i =>
      (buf.channels.map (fun ch => i16le (sampleToInt16 (ch.getD i 0)))).flatten)
      (List.range buf.len)
      = List.map (fun _ => buf.numberOfChannels * 2) (List.range buf.len) := by
    exact List.map_congr_left (fun i _ => hinner i)
  rw [this, List.map_const', List.sum_replicate, smul_eq_mul, List.length_range]
  ring

/-- C9 counterexample: for a one-sample mono buffer the encoded file is 46
bytes — a 44-byte header plus one 16-bit sample — not the 42-byte header the
claim states. -/
theorem wav_header_not_42_bytes_cex :
    (audioBufferToWavBytes ⟨1, 1, [[0]]⟩).length = 44 + 2 * 1 * 1
    ∧ ¬ (audioBufferToWavBytes ⟨1, 1, [[0]]⟩).length = 42 + 2 * 1 * 1 := by
  have h : (audioBufferToWavBytes ⟨1, 1, [[0]]⟩).length = 46 := by
    unfold audioBufferToWavBytes
    rw [List.length_append, wavHeader_length, pcmBytes_length]
    rfl
  rw [h]
  omega

/-- C9 (amended): the padded output is a fixed simple raw container — a
44-byte RIFF/WAVE header followed by interleaved 16-bit little-endian PCM
samples — whose header fields preserve the input's channel count (offsets
22–23) and sample rate (offsets 24–27). -/
theorem wav_encoding_layout
    (buf : AudioBuffer)
    (hch : buf.numberOfChannels < 65536) (hsr : buf.sampleRate < 4294967296) :
    (wavHeader buf).length = 44
    ∧ (audioBufferToWavBytes buf).take 44 = wavHeader buf
    ∧ (audioBufferToWavBytes buf).drop 44 = pcmBytes buf
    ∧ (audioBufferToWavBytes buf).length = 44 + buf.len * buf.numberOfChannels * 2
    ∧ ((wavHeader buf).drop 22).take 2 = u16le buf.numberOfChannels
    ∧ ((wavHeader buf).drop 24).take 4 = u32le buf.sampleRate
    ∧ decodeU16 (u16le buf.numberOfChannels) = buf.numberOfChannels
    ∧ decodeU32 (u32le buf.sampleRate) = buf.sampleRate := by
  refine ⟨rfl, ?_, ?_, ?_, rfl, rfl, ?_, ?_⟩
  · unfold audioBufferToWavBytes
    rw [← wavHeader_length buf]
    exact List.take_left _ _
  · unfold audioBufferToWavBytes
    rw [← wavHeader_length buf]
    exact List.drop_left _ _
  · unfold audioBufferToWavBytes
    rw [List.length_append, wavHeader_length, pcmBytes_length]
  · simp only [decodeU16, u16le, List.getD_cons_zero, List.getD_cons_succ]
    omega
  · simp only [decodeU32, u32le, List.getD_cons_zero, List.getD_cons_succ]
    omega

/-- Witness for `wav_encoding_layout` at a concrete mono buffer. -/
theorem wav_encoding_layout_witness :
    (wavHeader ⟨8000, 1, [[0]]⟩).length = 44
    ∧ ((wavHeader ⟨8000, 1, [[0]]⟩).drop 22).take 2 = u16le 1
    ∧ decodeU32 (u32le 8000) = 8000 := by
  have h := wav_encoding_layout ⟨8000, 1, [[0]]⟩ (by decide) (by decide)
  exact ⟨h.1, h.2.2.2.2.1, h.2.2.2.2.2.2.2⟩

/-! ## Segment processor (`processVideo` in `utils/videoComposer.ts`)

The ffmpeg.wasm virtual filesystem and network are modelled by oracles:
`fetchOrDecode` stands for `atob` of a base64 payload or `fetchFile` of a
URL (`none` = the call threw), and `execOutput` for the bytes readable from
the output file after `ffmpeg.exec` (`none` = exec failed or no file was
produced). The input video file is assumed present (the caller of
`processVideo` writes it immediately before; the function re-verifies it and
throws otherwise). -/

/-- `audioUrl && audioUrl.length > 10` — "meaningful data, not just empty
string". -/
def hasAudioCheck : Option String → Bool
  | none => false
  | some u => decide (10 < u.length)

/-- `subtitle && subtitle.length > 0`. -/
def hasSubtitleCheck : Option String → Bool
  | none => false
  | some s => decide (0 < s.length)

/-- Split on every occurrence of a character (JavaScript `split(',')`). -/
def splitOnChar (c : Char) : List Char → List (List Char)
  | [] => [[]]
  | x :: xs =>
    let rest := splitOnChar c xs
    if x == c then [] :: rest
    else
      match rest with
      | [] => [[x]]
      | r :: rs => (x :: r) :: rs

/-- `audioUrl.split(',')[1]` — the base64 payload of a data URL (missing
part behaves as empty). -/
def dataUrlPayload (u : String) : String :=
  ⟨(splitOnChar (Char.ofNat 44) u.toList).getD 1 []⟩

/-- `u.startsWith('data:')`. -/
def startsWithDataScheme (u : String) : Bool :=
  leadsWith "data:".toList u.toList

/-- The argv of the mux exec in `processVideo`: stream-copy the video,
transcode audio to AAC at 128k, `-shortest`. -/
def muxArgs (videoFile outputFile : String) : List String :=
  ["-i", videoFile, "-i", "temp_audio.mp3", "-c:v", "copy", "-c:a", "aac",
   "-b:a", "128k", "-shortest", "-movflags", "+faststart", "-y", outputFile]

/-- Outcome of one `processVideo` call. -/
inductive PVOutcome : Type
  | passthrough (outputBytes : List Nat) (subtitleIgnored : Bool)
  | muxed (args : List String) (outputBytes : List Nat) (subtitleIgnored : Bool)
  | failure (msg : String)
deriving DecidableEq, Repr

/-- Embedding of `processVideo`: no (meaningful) audio → copy the video
bytes to the output verbatim, warning that any subtitle is ignored; audio
present → load it (empty data-URL payload or a failed fetch/decode falls
back to copying the video and still reports success), then run the mux exec
and verify the output is non-empty, failing that segment otherwise. -/
def processVideo (fetchOrDecode : String → Option (List Nat))
    (execOutput : Option (List Nat)) (videoFile outputFile : String)
    (videoBytes : List Nat) (audioUrl : Option String) (subtitle : Option String) :
    PVOutcome :=
  let hasAudio := hasAudioCheck audioUrl
  let hasSubtitle := hasSubtitleCheck subtitle
  if hasAudio = false then
    PVOutcome.passthrough videoBytes hasSubtitle
  else
    let u := audioUrl.getD ""
    let audioData : Option (List Nat) :=
      if startsWithDataScheme u then
        let base64Data := dataUrlPayload u
        if base64Data.length = 0 then none
        else fetchOrDecode base64Data
      else fetchOrDecode u
    match audioData with
    | none => PVOutcome.passthrough videoBytes false
    | some _ =>
      match execOutput with
      | none => PVOutcome.failure ("Output file not created: " ++ outputFile)
      | some out =>
        if out.length = 0 then PVOutcome.failure ("Output file not created: " ++ outputFile)
        else PVOutcome.muxed (muxArgs videoFile outputFile) out hasSubtitle

/-- C6: with no speech clip the segment processor emits the input video
bytes unchanged (byte-identical passthrough), and a present caption is not
burned in — it is logged as ignored (the `subtitleIgnored` flag). -/
theorem passthrough_without_speech
    (fetchOrDecode : String → Option (List Nat)) (execOutput : Option (List Nat))
    (videoFile outputFile : String) (videoBytes : List Nat) (subtitle : Option String) :
    processVideo fetchOrDecode execOutput videoFile outputFile videoBytes none subtitle
      = PVOutcome.passthrough videoBytes (hasSubtitleCheck subtitle)
    ∧ (∀ s : String, 0 < s.length → hasSubtitleCheck (some s) = true) := by
  constructor
  · rfl
  · intro s hs
    simp [hasSubtitleCheck, hs]

/-- Witness for `passthrough_without_speech` with a caption present. -/
theorem passthrough_without_speech_witness :
    processVideo (fun _ => none) (some [9]) "input0.mp4" "processed0.mp4"
      [1, 2, 3] none (some "A caption")
      = PVOutcome.passthrough [1, 2, 3] true := by
  have h := passthrough_without_speech (fun _ => none) (some [9]) "input0.mp4"
    "processed0.mp4" [1, 2, 3] (some "A caption")
  rw [h.1, h.2 "A caption" (by decide)]

/-- C10: a speech clip whose data cannot be loaded — an empty base64 payload
in a data URL, or a fetch/decode failure — makes the segment processor emit
the input video unchanged and report success for the segment (the speech is
silently dropped). -/
theorem speech_load_failure_falls_back_to_video
    (fetchOrDecode : String → Option (List Nat)) (execOutput : Option (List Nat))
    (videoFile outputFile : String) (videoBytes : List Nat)
    (u : String) (subtitle : Option String) (hu : 10 < u.length) :
    (startsWithDataScheme u = true → (dataUrlPayload u).length = 0 →
      processVideo fetchOrDecode execOutput videoFile outputFile videoBytes (some u) subtitle
        = PVOutcome.passthrough videoBytes false)
    ∧ (startsWithDataScheme u = true → 0 < (dataUrlPayload u).length →
        fetchOrDecode (dataUrlPayload u) = none →
        processVideo fetchOrDecode execOutput videoFile outputFile videoBytes (some u) subtitle
          = PVOutcome.passthrough videoBytes false)
    ∧ (startsWithDataScheme u = false → fetchOrDecode u = none →
        processVideo fetchOrDecode execOutput videoFile outputFile videoBytes (some u) subtitle
          = PVOutcome.passthrough videoBytes false) := by
  refine ⟨?_, ?_, ?_⟩
  · intro hscheme hempty
    simp [processVideo, hasAudioCheck, hu, hscheme, hempty]
  · intro hscheme hnonempty hfetch
    simp [processVideo, hasAudioCheck, hu, hscheme, Nat.pos_iff_ne_zero.mp hnonempty, hfetch]
  · intro hscheme hfetch
    simp [processVideo, hasAudioCheck, hu, hscheme, hfetch]

/-- Witness for `speech_load_failure_falls_back_to_video`: a data URL with an
empty payload, and a remote URL whose fetch fails. -/
theorem speech_load_failure_witness :
    processVideo (fun _ => none) (some [9]) "input0.mp4" "processed0.mp4"
      [7, 7] (some "data:audio/mpeg;base64,") (some "cap")
      = PVOutcome.passthrough [7, 7] false
    ∧ processVideo (fun _ => none) (some [9]) "input0.mp4" "processed0.mp4"
      [7, 7] (some "http://audio.example/a.mp3") none
      = PVOutcome.passthrough [7, 7] false := by
  constructor
  · exact (speech_load_failure_falls_back_to_video (fun _ => none) (some [9])
      "input0.mp4" "processed0.mp4" [7, 7] "data:audio/mpeg;base64," (some "cap")
      (by decide)).1 (by decide) (by decide)
  · exact (speech_load_failure_falls_back_to_video (fun _ => none) (some [9])
      "input0.mp4" "processed0.mp4" [7, 7] "http://audio.example/a.mp3" none
      (by decide)).2.2 (by decide) rfl

/-! ## Caption burn-in path (`mergeVideoAudio` in `utils/videoAudioMerger.ts`)

This is the code path that burns a caption into the video as rendered text;
on the export path (`processVideo` above) captions are ignored instead. -/

/-- An ASCII single-quote character, as used inside the ffmpeg filter
argument. -/
def sq : String := String.singleton (Char.ofNat 39)

/-- The fixed `force_style` of the subtitle filter: readable size, white
with black outline, bottom-center alignment. -/
def subtitleStyle : String :=
  "FontSize=24,PrimaryColour=&HFFFFFF,OutlineColour=&H000000,BorderStyle=3,Outline=2,Shadow=1,MarginV=30,Alignment=2"

/-- The `-vf` value burning `subtitle.srt` at the fixed style. -/
def subtitleFilter : String :=
  "subtitles=subtitle.srt:force_style=" ++ sq ++ subtitleStyle ++ sq

/-- The argv `mergeVideoAudio` executes, by branch: subtitle present →
burn-in with `libx264` re-encode (with or without the audio mux); audio
only → mux with video stream copy; neither → plain stream copy. -/
def mergeVideoAudioArgs (audioUrl : String) (subtitle : Option String) : List String :=
  let hasAudio := decide (0 < audioUrl.length)
  let hasSubtitle := match subtitle with | none => false | some s => !(s == "")
  if hasSubtitle then
    if hasAudio then
      ["-i", "input.mp4", "-i", "audio.mp3", "-vf", subtitleFilter, "-c:v", "libx264",
       "-preset", "fast", "-crf", "23", "-c:a", "aac", "-b:a", "128k", "-shortest",
       "output.mp4"]
    else
      ["-i", "input.mp4", "-vf", subtitleFilter, "-c:v", "libx264", "-preset", "fast",
       "-crf", "23", "-an", "output.mp4"]
  else if hasAudio then
    ["-i", "input.mp4", "-i", "audio.mp3", "-c:v", "copy", "-c:a", "aac", "-b:a", "128k",
     "-shortest", "output.mp4"]
  else
    ["-i", "input.mp4", "-c", "copy", "output.mp4"]

set_option maxRecDepth 8192 in
/-- C7: with both a speech clip and a caption, the burn-in segment path
performs the same audio mux as its speech-only branch (`-c:a aac -b:a 128k
-shortest`) and additionally re-encodes the video stream with `libx264`
(no `-c:v copy`) to burn the caption at the fixed style (bottom-aligned,
outlined, sized for readability), whereas the speech-only branch
stream-copies the video. -/
theorem caption_burn_in_reencodes_video (u s : String) (hu : 0 < u.length) (hs : s ≠ "") :
    List.IsInfix ["-c:v", "libx264"] (mergeVideoAudioArgs u (some s))
    ∧ ¬ List.IsInfix ["-c:v", "copy"] (mergeVideoAudioArgs u (some s))
    ∧ List.IsInfix ["-vf", subtitleFilter] (mergeVideoAudioArgs u (some s))
    ∧ List.IsInfix ["-c:a", "aac", "-b:a", "128k", "-shortest"]
        (mergeVideoAudioArgs u (some s))
    ∧ List.IsInfix ["-c:a", "aac", "-b:a", "128k", "-shortest"] (mergeVideoAudioArgs u none)
    ∧ List.IsInfix ["-c:v", "copy"] (mergeVideoAudioArgs u none)
    ∧ containsSub subtitleFilter "Alignment=2" = true
    ∧ containsSub subtitleFilter "FontSize=24" = true
    ∧ containsSub subtitleFilter "Outline=2" = true := by
  have hsb : (s == "") = false := beq_eq_false_iff_ne.mpr hs
  have hboth : mergeVideoAudioArgs u (some s)
      = ["-i", "input.mp4", "-i", "audio.mp3", "-vf", subtitleFilter, "-c:v", "libx264",
         "-preset", "fast", "-crf", "23", "-c:a", "aac", "-b:a", "128k", "-shortest",
         "output.mp4"] := by
    simp [mergeVideoAudioArgs, hu, hsb]
  have haudio : mergeVideoAudioArgs u none
      = ["-i", "input.mp4", "-i", "audio.mp3", "-c:v", "copy", "-c:a", "aac", "-b:a", "128k",
         "-shortest", "output.mp4"] := by
    simp [mergeVideoAudioArgs, hu]
  rw [hboth, haudio]
  refine ⟨by decide, by decide, by decide, by decide, by decide, by decide,
    by decide, by decide, by decide⟩

/-- Witness for `caption_burn_in_reencodes_video` at a concrete segment. -/
theorem caption_burn_in_witness :
    List.IsInfix ["-c:v", "libx264"] (mergeVideoAudioArgs "blob:a" (some "Hello"))
    ∧ ¬ List.IsInfix ["-c:v", "copy"] (mergeVideoAudioArgs "blob:a" (some "Hello"))
    ∧ List.IsInfix ["-c:v", "copy"] (mergeVideoAudioArgs "blob:a" none) := by
  have h := caption_burn_in_reencodes_video "blob:a" "Hello" (by decide) (by decide)
  exact ⟨h.1, h.2.1, h.2.2.2.2.2.1⟩

end StoryTool
